import Mathlib

/-!
Shallow embedding of the BentoML serving-topology orchestrator
(`src/bentoml/serve.py` and `src/bentoml_cli/server/http_api_server.py`).

Pure planning logic (socket maps, watcher construction, argument vectors)
is translated into executable Lean functions; external collaborators
(`tempfile.mkdtemp`, `reserve_free_port`, `CpuResource.from_system`,
filesystem outcomes) are modelled as explicit parameters, and stateful
side effects (directory creation/removal) as explicit fields of result
records.
-/

namespace BentoServe

/-- Mirrors `circus.sockets.CircusSocket` as constructed by `serve.py`:
either a unix-domain socket (`CircusSocket(name=…, path=…, backlog=…)`)
or a TCP socket (`CircusSocket(name=…, host=…, port=…, backlog=…)`). -/
inductive CircusSocket where
  | unixSock (name : String) (path : String) (backlog : Nat)
  | tcpSock (name : String) (host : String) (port : Nat) (backlog : Nat)
deriving DecidableEq

/-- Mirrors the fields of `circus.watcher.Watcher` that `serve.py` sets.
`numprocesses` defaults to 1 and `close_child_stdin` to `True`, the
documented circus defaults used when `serve.py` does not pass them. -/
structure Watcher where
  name : String
  args : List String
  numprocesses : Int := 1
  copy_env : Bool := true
  stop_children : Bool := true
  use_sockets : Bool := true
  working_dir : String := ""
  close_child_stdin : Bool := true
deriving DecidableEq

/-- The attributes of a loaded runner that `serve.py` reads:
`runner.name`, `runner.scheduled_worker_count`, and the CPython object
identity `id(runner)` used to derive the socket file name. -/
structure Runner where
  name : String
  scheduled_worker_count : Nat
  idTag : Nat
deriving DecidableEq

/-- The seven optional TLS parameters threaded through both entry points. -/
structure SslParams where
  keyfile : Option String := none
  certfile : Option String := none
  keyfile_password : Option String := none
  version : Option Int := none
  cert_reqs : Option Int := none
  ca_certs : Option String := none
  ciphers : Option String := none
deriving DecidableEq

def SCRIPT_RUNNER : String := "bentoml_cli.server.runner"

def SCRIPT_API_SERVER : String := "bentoml_cli.server.http_api_server"

def SCRIPT_DEV_API_SERVER : String := "bentoml_cli.server.http_dev_api_server"

def MAX_AF_UNIX_PATH_LENGTH : Nat := 103

/-- Python `a or b` on an optional integer: `None` and `0` are falsy. -/
def pyOrInt (a : Option Int) (b : Int) : Int :=
  match a with
  | some v => if v = 0 then b else v
  | none => b

/-- Python `dict` assignment `m[k] = v` on a string-keyed dict rendered as
an insertion-ordered association list: an existing key keeps its position
and gets the new value, a fresh key is appended. -/
def dictInsert {α : Type} : List (String × α) → String → α → List (String × α)
  | [], k, v => [(k, v)]
  | (k1, v1) :: rest, k, v =>
      if k1 = k then (k, v) :: rest else (k1, v1) :: dictInsert rest k v

/-- `json.dumps` on a string-to-string dict (used only as an opaque argument
string; key escaping is not modelled). -/
def jsonDumps (m : List (String × String)) : String :=
  "\x7b" ++ String.intercalate ", "
    (m.map (fun p => "\"" ++ p.1 ++ "\": \"" ++ p.2 ++ "\"")) ++ "\x7d"

/-- Modelled from the spec: `bentoml._internal.utils.uri.path_to_uri` is not
among the sources; spec section 3 states runner addresses on POSIX are
`unix://…` strings for the allocated socket path. -/
def path_to_uri (p : String) : String := "unix://" ++ p

/-- `os.path.join(uds_path, f"<id(runner)>.sock")` from `serve.py`. -/
def sockPath (udsPath : String) (r : Runner) : String :=
  udsPath ++ "/" ++ toString r.idTag ++ ".sock"

/-- The `["--flag", value]` fragment appended for one optional parameter,
or nothing when the parameter is `None` (the `extend … if x is not None`
pattern of `serve.py`). -/
def optArgStr (flag : String) : Option String → List String
  | some v => [flag, v]
  | none => []

/-- The optional-TLS-argument suffix shared by `serve_development` and
`serve_production`: seven `extend` statements in source order, each firing
only when the parameter `is not None`; the two integer parameters are
stringified with `str(…)`. -/
def sslArgs (s : SslParams) : List String :=
  optArgStr "--ssl-keyfile" s.keyfile ++
  optArgStr "--ssl-certfile" s.certfile ++
  optArgStr "--ssl-keyfile-password" s.keyfile_password ++
  optArgStr "--ssl-version" (s.version.map (fun v => toString v)) ++
  optArgStr "--ssl-cert-reqs" (s.cert_reqs.map (fun v => toString v)) ++
  optArgStr "--ssl-ca-certs" s.ca_certs ++
  optArgStr "--ssl-ciphers" s.ciphers

def sslFlagStrings : List String :=
  ["--ssl-keyfile", "--ssl-certfile", "--ssl-keyfile-password",
   "--ssl-version", "--ssl-cert-reqs", "--ssl-ca-certs", "--ssl-ciphers"]

/-- An optional string parameter whose value (if set) is not itself one of
the TLS flag strings; arguments are untyped strings, so membership
characterisations need this non-collision side condition. -/
def cleanOpt (o : Option String) : Prop :=
  ∀ v, o = some v → v ∉ sslFlagStrings

/-- All seven TLS parameter values (integer ones after `str(…)`) avoid the
flag strings themselves. -/
def sslValuesClean (s : SslParams) : Prop :=
  cleanOpt s.keyfile ∧ cleanOpt s.certfile ∧ cleanOpt s.keyfile_password ∧
  cleanOpt (s.version.map (fun v => toString v)) ∧
  cleanOpt (s.cert_reqs.map (fun v => toString v)) ∧
  cleanOpt s.ca_certs ∧ cleanOpt s.ciphers

/-! ## `ensure_prometheus_dir` -/

/-- Pre-existing state of the configured metrics path. -/
inductive DirState where
  | absent
  | emptyDir
  | nonEmptyDir
  | fileEntry
deriving DecidableEq

/-- Outcome of `ensure_prometheus_dir`: the returned path or the uncaught
`RuntimeError` message, the final state of the configured path, whether
the `tempfile.mkdtemp()` fallback was taken, and whether the fallback
warning was logged. -/
structure PromOutcome where
  result : Except String String
  configuredFinal : DirState
  usedFallback : Bool
  warned : Bool

/-- `Path(directory).absolute()`: absolute paths (leading `/`) are
returned unchanged, relative ones are resolved against the working
directory. -/
def absPath (s : String) : String :=
  if s.data.headD ' ' = '/' then s else "/cwd/" ++ s

/-- `ensure_prometheus_dir(directory, clean, use_alternative)` from
`serve.py`. Filesystem effects are modelled by `st` (pre-existing state of
the path), `rmtreeOk` / `mkdirOk` (whether `shutil.rmtree` / `Path.mkdir`
succeed when attempted; `rmtree` on a non-directory always raises
`NotADirectoryError`), and `fallbackName` (the fresh directory name that
`tempfile.mkdtemp()` would mint, always an empty absolute directory).
`OSError`s from `rmtree`/`mkdir` are caught and routed to the alternative
when `use_alternative`, else re-raised as `RuntimeError`; the
`RuntimeError` for a non-empty directory with `clean=False` is caught by
neither handler and propagates. -/
def ensure_prometheus_dir (directory : String) (clean : Bool)
    (use_alternative : Bool) (st : DirState) (rmtreeOk : Bool)
    (mkdirOk : Bool) (fallbackName : String) : PromOutcome :=
  let fallback : DirState → PromOutcome := fun final =>
    if use_alternative then
      { result := Except.ok ("/tmp/" ++ fallbackName)
        configuredFinal := final, usedFallback := true, warned := true }
    else
      { result := Except.error
          ("Failed to create the prometheus multiproc directory " ++ directory)
        configuredFinal := final, usedFallback := false, warned := false }
  match st with
  | DirState.emptyDir =>
      { result := Except.ok (absPath directory)
        configuredFinal := DirState.emptyDir
        usedFallback := false, warned := false }
  | DirState.nonEmptyDir =>
      if clean then
        if rmtreeOk then
          if mkdirOk then
            { result := Except.ok (absPath directory)
              configuredFinal := DirState.emptyDir
              usedFallback := false, warned := false }
          else fallback DirState.absent
        else fallback DirState.nonEmptyDir
      else
        { result := Except.error
            ("Prometheus multiproc directory " ++ directory ++ " is not empty")
          configuredFinal := DirState.nonEmptyDir
          usedFallback := false, warned := false }
  | DirState.fileEntry =>
      if clean then fallback DirState.fileEntry
      else
        { result := Except.error
            ("Prometheus multiproc directory " ++ directory ++ " is not empty")
          configuredFinal := DirState.fileEntry
          usedFallback := false, warned := false }
  | DirState.absent =>
      if mkdirOk then
        { result := Except.ok (absPath directory)
          configuredFinal := DirState.emptyDir
          usedFallback := false, warned := false }
      else fallback DirState.absent

/-! ## `serve_development` -/

/-- The topology a serve invocation hands to `create_standalone_arbiter`:
the socket map (dict), the runner address map (dict), and the watcher
list, in construction order. -/
structure Topology where
  socketMap : List (String × CircusSocket)
  bindMap : List (String × String)
  watchers : List Watcher
deriving DecidableEq

/-- Result of development-mode planning: the circus sockets, the watchers,
and the plugin list (the reloader plugin's `use` path when `--reload`). -/
structure DevResult where
  sockets : List CircusSocket
  watchers : List Watcher
  plugins : List String
deriving DecidableEq

/-- The fixed head of the dev API-server argument vector, before the
optional TLS suffix. -/
def devApiBaseArgs (bento_identifier working_dir prometheus_dir : String) :
    List String :=
  ["-m", SCRIPT_DEV_API_SERVER, bento_identifier,
   "--bind", "fd://$(circus.sockets._bento_api_server)",
   "--working-dir", working_dir,
   "--prometheus-dir", prometheus_dir]

/-- `serve_development` from `serve.py`, planning part: one API-server
socket, one `dev_api_server` watcher (circus-default process count 1,
stdin left open), and the reloader plugin when `reload` is set. The
loaded service's runner list plays no part in development-mode topology
(runners execute in-process inside the single dev worker), which the
unused `runners` parameter makes explicit. -/
def serve_development (bento_identifier working_dir : String) (port : Nat)
    (host : String) (backlog : Nat) (reload : Bool) (ssl : SslParams)
    (prometheus_dir : String) (runners : List Runner) : DevResult :=
  let _ := runners
  { sockets := [CircusSocket.tcpSock "_bento_api_server" host port backlog]
    watchers :=
      [{ name := "dev_api_server"
         args := devApiBaseArgs bento_identifier working_dir prometheus_dir
                   ++ sslArgs ssl
         numprocesses := 1
         working_dir := working_dir
         close_child_stdin := false }]
    plugins :=
      if reload then
        ["bentoml._internal.utils.circus.watchfilesplugin.ServiceReloaderPlugin"]
      else [] }

/-! ## `serve_production` -/

/-- Errors a production serve invocation can raise during planning, plus
the spec's `TopologyError`, which is part of the stated error taxonomy but
is never produced by this code. -/
inductive ServeError where
  | assertionError
  | topologyError (msg : String)
  | notImplementedError (platform : String)
deriving DecidableEq

/-- `psutil.POSIX` / `psutil.WINDOWS` / anything else. -/
inductive Platform where
  | posix
  | windows
  | other (name : String)
deriving DecidableEq

/-- The runner watcher built inside the POSIX branch of `serve_production`. -/
def posixRunnerWatcher (bento_identifier working_dir : String) (r : Runner) :
    Watcher :=
  { name := "runner_" ++ r.name
    args := ["-m", SCRIPT_RUNNER, bento_identifier,
             "--runner-name", r.name,
             "--bind", "fd://$(circus.sockets." ++ r.name ++ ")",
             "--working-dir", working_dir,
             "--worker-id", "$(CIRCUS.WID)"]
    numprocesses := r.scheduled_worker_count
    working_dir := working_dir }

/-- The runner watcher built inside the Windows branch of
`serve_production` (adds `--no-access-log`, lowercase wid token). -/
def windowsRunnerWatcher (bento_identifier working_dir : String)
    (r : Runner) : Watcher :=
  { name := "runner_" ++ r.name
    args := ["-m", SCRIPT_RUNNER, bento_identifier,
             "--runner-name", r.name,
             "--bind", "fd://$(circus.sockets." ++ r.name ++ ")",
             "--working-dir", working_dir,
             "--no-access-log",
             "--worker-id", "$(circus.wid)"]
    numprocesses := r.scheduled_worker_count
    working_dir := working_dir }

/-- The fixed head of the production API-server argument vector, before
the optional TLS suffix. -/
def prodApiBaseArgs (bento_identifier : String)
    (bindMap : List (String × String)) (working_dir : String)
    (backlog : Nat) (prometheus_dir : String) : List String :=
  ["-m", SCRIPT_API_SERVER, bento_identifier,
   "--bind", "fd://$(circus.sockets._bento_api_server)",
   "--runner-map", jsonDumps bindMap,
   "--working-dir", working_dir,
   "--backlog", toString backlog,
   "--worker-id", "$(CIRCUS.WID)",
   "--prometheus-dir", prometheus_dir]

/-- The full production API-server argument vector. -/
def prodApiArgs (bento_identifier : String)
    (bindMap : List (String × String)) (working_dir : String)
    (backlog : Nat) (prometheus_dir : String) (ssl : SslParams) :
    List String :=
  prodApiBaseArgs bento_identifier bindMap working_dir backlog prometheus_dir
    ++ sslArgs ssl

/-- The `api_server` watcher: `numprocesses` is the Python expression
`api_workers or math.ceil(CpuResource.from_system())`, with the CPU
ceiling supplied as `cpuCeil`. -/
def prodApiWatcher (bento_identifier : String)
    (bindMap : List (String × String)) (working_dir : String)
    (backlog : Nat) (prometheus_dir : String) (ssl : SslParams)
    (api_workers : Option Int) (cpuCeil : Int) : Watcher :=
  { name := "api_server"
    args := prodApiArgs bento_identifier bindMap working_dir backlog
              prometheus_dir ssl
    numprocesses := pyOrInt api_workers cpuCeil
    working_dir := working_dir }

/-- The POSIX `for runner in svc.runners` loop of `serve_production`:
per runner, `assert len(sockets_path) < MAX_AF_UNIX_PATH_LENGTH`, then
dict-insert the bind address and the unix socket under the runner's name
and append the runner watcher. The assertion failure aborts the loop. -/
def posixLoop (udsPath bento_identifier working_dir : String)
    (backlog : Nat) :
    List Runner → List (String × String) → List (String × CircusSocket) →
    List Watcher →
    Except ServeError
      (List (String × String) × List (String × CircusSocket) × List Watcher)
  | [], bindMap, socketMap, watchers => Except.ok (bindMap, socketMap, watchers)
  | r :: rest, bindMap, socketMap, watchers =>
      let p := sockPath udsPath r
      if p.length < MAX_AF_UNIX_PATH_LENGTH then
        posixLoop udsPath bento_identifier working_dir backlog rest
          (dictInsert bindMap r.name (path_to_uri p))
          (dictInsert socketMap r.name (CircusSocket.unixSock r.name p backlog))
          (watchers ++ [posixRunnerWatcher bento_identifier working_dir r])
      else Except.error ServeError.assertionError

/-- The Windows `for runner in svc.runners` loop: each iteration enters a
`reserve_free_port()` context (modelled by drawing `portSupply k` for the
`k`-th reservation of the invocation), dict-inserts the
`tcp://127.0.0.1:port` address and the TCP socket, and appends the runner
watcher. Returns the accumulators and the number of ports reserved so
far. -/
def windowsLoop (bento_identifier working_dir : String) (backlog : Nat)
    (portSupply : Nat → Nat) :
    List Runner → Nat → List (String × String) →
    List (String × CircusSocket) → List Watcher →
    (List (String × String) × List (String × CircusSocket) × List Watcher
      × Nat)
  | [], k, bindMap, socketMap, watchers => (bindMap, socketMap, watchers, k)
  | r :: rest, k, bindMap, socketMap, watchers =>
      let p := portSupply k
      windowsLoop bento_identifier working_dir backlog portSupply rest (k + 1)
        (dictInsert bindMap r.name ("tcp://127.0.0.1:" ++ toString p))
        (dictInsert socketMap r.name
          (CircusSocket.tcpSock r.name "127.0.0.1" p backlog))
        (watchers ++ [windowsRunnerWatcher bento_identifier working_dir r])

/-- Map a runner list together with a running index (the reservation
counter of the Windows branch). -/
def idxMap {α : Type} (f : Nat → Runner → α) : Nat → List Runner → List α
  | _, [] => []
  | k, r :: rest => f k r :: idxMap f (k + 1) rest

/-- What a production serve invocation has planned and what ephemeral
state it holds: the planning result (or the exception that aborted it),
the `uds_path` variable, whether `tempfile.mkdtemp()` was called (the
directory exists on disk), and how many `reserve_free_port` probes were
entered. -/
structure ProdPlan where
  result : Except ServeError Topology
  udsPath : Option String
  udsCreated : Bool
  portsReserved : Nat

/-- The planning phase of `serve_production` from `serve.py` (everything
up to `create_standalone_arbiter`). External inputs are explicit: the
loaded service's runners, the fresh temp directory name `mkdtemp` would
mint on POSIX, the port supply on Windows, the CPU ceiling
`math.ceil(CpuResource.from_system())`, and the resolved prometheus
directory. -/
def serve_production (platform : Platform)
    (bento_identifier working_dir : String) (port : Nat) (host : String)
    (backlog : Nat) (api_workers : Option Int) (ssl : SslParams)
    (runners : List Runner) (udsPath : String) (portSupply : Nat → Nat)
    (cpuCeil : Int) (prometheus_dir : String) : ProdPlan :=
  match platform with
  | Platform.posix =>
      match posixLoop udsPath bento_identifier working_dir backlog
          runners [] [] [] with
      | Except.error e =>
          { result := Except.error e, udsPath := some udsPath
            udsCreated := true, portsReserved := 0 }
      | Except.ok (bindMap, socketMap, watchers) =>
          let socketMap := dictInsert socketMap "_bento_api_server"
            (CircusSocket.tcpSock "_bento_api_server" host port backlog)
          let watchers := watchers ++
            [prodApiWatcher bento_identifier bindMap working_dir backlog
              prometheus_dir ssl api_workers cpuCeil]
          { result := Except.ok
              { socketMap := socketMap, bindMap := bindMap
                watchers := watchers }
            udsPath := some udsPath, udsCreated := true, portsReserved := 0 }
  | Platform.windows =>
      match windowsLoop bento_identifier working_dir backlog portSupply
          runners 0 [] [] [] with
      | (bindMap, socketMap, watchers, k) =>
          let socketMap := dictInsert socketMap "_bento_api_server"
            (CircusSocket.tcpSock "_bento_api_server" host port backlog)
          let watchers := watchers ++
            [prodApiWatcher bento_identifier bindMap working_dir backlog
              prometheus_dir ssl api_workers cpuCeil]
          { result := Except.ok
              { socketMap := socketMap, bindMap := bindMap
                watchers := watchers }
            udsPath := none, udsCreated := false
            portsReserved := k + 1 }
  | Platform.other name =>
      { result := Except.error (ServeError.notImplementedError name)
        udsPath := none, udsCreated := false, portsReserved := 0 }

/-- How the blocking `arbiter.start(…)` call ends. -/
inductive ExitPath where
  | normalExit
  | signalled
  | startException
deriving DecidableEq

/-- How many times `shutil.rmtree(uds_path)` runs for a production serve:
the `try … finally` wraps only the `arbiter.start` call, so the `finally`
removes the directory exactly once — on any `ExitPath` — whenever
planning succeeded and `uds_path is not None`; but an exception raised
during planning propagates before the `try` block is entered, so the
`finally` never runs on that path. -/
def serve_production_run (p : ProdPlan) (exit : ExitPath) : Nat :=
  let _ := exit
  match p.result with
  | Except.error _ => 0
  | Except.ok _ =>
      match p.udsPath with
      | some _ => 1
      | none => 0

/-- `Except.isOk` spelled out for the plan result. -/
def planOk (p : ProdPlan) : Bool :=
  match p.result with
  | Except.ok _ => true
  | Except.error _ => false

/-- The planning error, when planning raised. -/
def planErr (p : ProdPlan) : Option ServeError :=
  match p.result with
  | Except.ok _ => none
  | Except.error e => some e

/-- Shape of a successful plan: number of socket specs, of runner-address
entries, and of process specs. -/
def planShape (p : ProdPlan) : Option (Nat × Nat × Nat) :=
  match p.result with
  | Except.ok t => some (t.socketMap.length, t.bindMap.length, t.watchers.length)
  | Except.error _ => none

/-- Process count of the API-server watcher (the last process spec) of a
successful plan. -/
def planApiNumprocesses (p : ProdPlan) : Option Int :=
  match p.result with
  | Except.ok t => (t.watchers.getLast?).map Watcher.numprocesses
  | Except.error _ => none

/-! ## `http_api_server.main` -/

/-- `urlparse` restricted to the `scheme://netloc[/…]` URIs this entry
point receives (`fd://12`, `tcp://127.0.0.1:3000`,
`unix:///tmp/bento_api.sock`). -/
structure UrlParts where
  scheme : String
  netloc : String
deriving DecidableEq

/-- Split a character list at the first occurrence of `sep`, returning the
parts before and after it. -/
def splitFirstOn (sep : List Char) : List Char → Option (List Char × List Char)
  | [] => none
  | c :: rest =>
      if (c :: rest).take sep.length = sep then
        some ([], (c :: rest).drop sep.length)
      else
        match splitFirstOn sep rest with
        | some (pre, post) => some (c :: pre, post)
        | none => none

def urlparse (s : String) : UrlParts :=
  match splitFirstOn ("://".data) s.data with
  | none => { scheme := "", netloc := "" }
  | some (sch, rest) =>
      { scheme := String.mk sch
        netloc := String.mk (rest.takeWhile (fun c => c ≠ '/')) }

def charDigit (c : Char) : Option Nat :=
  if '0' ≤ c ∧ c ≤ '9' then some (c.toNat - Char.toNat '0') else none

def digitsVal : List Char → Option Nat
  | [] => none
  | [c] => charDigit c
  | c :: rest =>
      match charDigit c, digitsVal rest with
      | some d, some n => some (d * 10 ^ rest.length + n)
      | _, _ => none

/-- Python `int(str)` on the decimal strings this entry point sees:
`None` models the `ValueError` on non-numeric input. -/
def pyIntOfString (s : String) : Option Int :=
  match s.data with
  | '-' :: rest => (digitsVal rest).map (fun n => -(n : Int))
  | l => (digitsVal l).map (fun n => (n : Int))

/-- Truthiness of an optional string (`if ssl_keyfile:`). -/
def pyTruthyStr (o : Option String) : Bool :=
  match o with
  | some v => v ≠ ""
  | none => false

/-- Truthiness of an optional integer (`if ssl_version:`). -/
def pyTruthyInt (o : Option Int) : Bool :=
  match o with
  | some v => v ≠ 0
  | none => false

/-- The `uvicorn_options` dict built by the leaf worker: fixed keys
`backlog`, `log_config=None`, `workers=1`; each TLS key present only when
the corresponding parameter is truthy; `loop="asyncio"` added on
Windows. -/
structure UvicornOptions where
  backlog : Nat
  log_config_none : Bool
  workers : Nat
  ssl_keyfile : Option String
  ssl_certfile : Option String
  ssl_keyfile_password : Option String
  ssl_version : Option Int
  ssl_cert_reqs : Option Int
  ssl_ca_certs : Option String
  ssl_ciphers : Option String
  loop_asyncio : Bool
deriving DecidableEq

def buildUvicornOptions (backlog : Nat) (s : SslParams)
    (isWindows : Bool) : UvicornOptions :=
  { backlog := backlog
    log_config_none := true
    workers := 1
    ssl_keyfile := if pyTruthyStr s.keyfile then s.keyfile else none
    ssl_certfile := if pyTruthyStr s.certfile then s.certfile else none
    ssl_keyfile_password :=
      if pyTruthyStr s.keyfile_password then s.keyfile_password else none
    ssl_version := if pyTruthyInt s.version then s.version else none
    ssl_cert_reqs := if pyTruthyInt s.cert_reqs then s.cert_reqs else none
    ssl_ca_certs := if pyTruthyStr s.ca_certs then s.ca_certs else none
    ssl_ciphers := if pyTruthyStr s.ciphers then s.ciphers else none
    loop_asyncio := isWindows }

/-- How the leaf worker obtains the socket it serves on. The code's only
socket acquisition is `socket.socket(fileno=fd)` — adoption of an
already-bound inherited descriptor; `newlyBound` exists to state that a
fresh bind never occurs. -/
inductive SockSource where
  | inheritedFd (fd : Int)
  | newlyBound (host : String) (port : Nat)
deriving DecidableEq

/-- Outcome of `http_api_server.main`. Without `--worker-id` the process
is the standalone parent (re-registers itself under a fresh arbiter);
with it, the leaf worker either fails the `assert parsed.scheme == "fd"`,
fails `int(parsed.netloc)`, or serves on the adopted descriptor with the
constructed uvicorn options. -/
inductive MainOutcome where
  | standaloneParent
  | leafAssertFailed
  | leafValueError
  | leafServing (src : SockSource) (opts : UvicornOptions)
deriving DecidableEq

/-- The role-dispatch and leaf-worker path of `http_api_server.main`
(`src/bentoml_cli/server/http_api_server.py`). Service loading, runner-map
container wiring, and observability context are effectful collaborators
with no bearing on the modelled outcome and are not represented. -/
def http_api_server_main (bind : String) (backlog : Nat)
    (worker_id : Option Int) (s : SslParams) (isWindows : Bool) :
    MainOutcome :=
  match worker_id with
  | none => MainOutcome.standaloneParent
  | some _ =>
      let parsed := urlparse bind
      let opts := buildUvicornOptions backlog s isWindows
      if parsed.scheme = "fd" then
        match pyIntOfString parsed.netloc with
        | some fd => MainOutcome.leafServing (SockSource.inheritedFd fd) opts
        | none => MainOutcome.leafValueError
      else MainOutcome.leafAssertFailed

/-- The TCP port of a socket spec (0 for unix-domain sockets). -/
def socketPort : CircusSocket → Nat
  | CircusSocket.tcpSock _ _ p _ => p
  | CircusSocket.unixSock _ _ _ => 0

/-- Relation between an optional parameter and the downstream option
produced from it by a truthiness check: the option is absent exactly when
the parameter is `None` or the empty string, and present options carry
the parameter's value unchanged. -/
def truthyFilterStr (inp out : Option String) : Prop :=
  (out = none ↔ (inp = none ∨ inp = some "")) ∧ (out.isSome → out = inp)

/-- Same relation for integer parameters, where `0` is the falsy value. -/
def truthyFilterInt (inp out : Option Int) : Prop :=
  (out = none ↔ (inp = none ∨ inp = some 0)) ∧ (out.isSome → out = inp)

/-! ## Helper lemmas -/

theorem dictInsert_not_mem {α : Type} (m : List (String × α)) (k : String)
    (v : α) (h : k ∉ m.map Prod.fst) : dictInsert m k v = m ++ [(k, v)] := by
  induction m with
  | nil => rfl
  | cons p rest ih =>
      obtain ⟨k1, v1⟩ := p
      simp only [List.map_cons, List.mem_cons, not_or] at h
      rw [dictInsert, if_neg (fun hk => h.1 hk.symm)]
      rw [ih h.2, List.cons_append]

theorem headD_slash_append (pre t : String)
    (h : pre.data.headD ' ' = '/') : ((pre ++ t).data).headD ' ' = '/' := by
  rw [String.data_append]
  cases hd : pre.data with
  | nil =>
      rw [hd] at h
      exact absurd h (by decide)
  | cons c l =>
      rw [hd] at h
      simpa using h

theorem absPath_abs (s : String) : (absPath s).data.headD ' ' = '/' := by
  unfold absPath
  split
  · assumption
  · exact headD_slash_append "/cwd/" s (by decide)

theorem pyOrInt_some_ne (w b : Int) (h : w ≠ 0) : pyOrInt (some w) b = w := by
  simp [pyOrInt, h]

theorem pyOrInt_falsy (a : Option Int) (b : Int)
    (h : a = none ∨ a = some 0) : pyOrInt a b = b := by
  rcases h with h | h <;> subst h <;> simp [pyOrInt]

theorem idxMap_length {α : Type} (f : Nat → Runner → α) :
    ∀ (k : Nat) (rs : List Runner), (idxMap f k rs).length = rs.length := by
  intro k rs
  induction rs generalizing k with
  | nil => rfl
  | cons r rest ih => simp [idxMap, ih]

theorem idxMap_map {α β : Type} (g : α → β) (f : Nat → Runner → α) :
    ∀ (k : Nat) (rs : List Runner),
      (idxMap f k rs).map g = idxMap (fun i r => g (f i r)) k rs := by
  intro k rs
  induction rs generalizing k with
  | nil => rfl
  | cons r rest ih => simp [idxMap, ih]

theorem idxMap_const_index {α : Type} (f : Runner → α) :
    ∀ (k : Nat) (rs : List Runner), idxMap (fun _ r => f r) k rs = rs.map f := by
  intro k rs
  induction rs generalizing k with
  | nil => rfl
  | cons r rest ih => simp [idxMap, ih]

theorem mem_idxMap_index (ps : Nat → Nat) :
    ∀ (k : Nat) (rs : List Runner) (x : Nat),
      x ∈ idxMap (fun i _ => ps i) k rs → ∃ j, k ≤ j ∧ x = ps j := by
  intro k rs
  induction rs generalizing k with
  | nil => intro x hx; cases hx
  | cons r rest ih =>
      intro x hx
      rcases List.mem_cons.mp hx with he | ht
      · exact ⟨k, Nat.le_refl k, he⟩
      · obtain ⟨j, hj, he⟩ := ih (k + 1) x ht
        exact ⟨j, Nat.le_of_succ_le hj, he⟩

theorem idxMap_ports_nodup (ps : Nat → Nat) (hinj : Function.Injective ps) :
    ∀ (k : Nat) (rs : List Runner), (idxMap (fun i _ => ps i) k rs).Nodup := by
  intro k rs
  induction rs generalizing k with
  | nil => exact List.nodup_nil
  | cons r rest ih =>
      rw [idxMap, List.nodup_cons]
      refine ⟨?_, ih (k + 1)⟩
      intro hmem
      obtain ⟨j, hj, he⟩ := mem_idxMap_index ps (k + 1) rest (ps k) hmem
      have hkj : k = j := hinj he
      omega

theorem posixLoop_ok (uds bi wd : String) (backlog : Nat) :
    ∀ (rs : List Runner) (bm : List (String × String))
      (sm : List (String × CircusSocket)) (ws : List Watcher),
      (∀ r ∈ rs, (sockPath uds r).length < MAX_AF_UNIX_PATH_LENGTH) →
      (rs.map Runner.name).Nodup →
      (∀ r ∈ rs, r.name ∉ bm.map Prod.fst) →
      (∀ r ∈ rs, r.name ∉ sm.map Prod.fst) →
      posixLoop uds bi wd backlog rs bm sm ws =
        Except.ok
          (bm ++ rs.map (fun r => (r.name, path_to_uri (sockPath uds r))),
           sm ++ rs.map (fun r =>
             (r.name, CircusSocket.unixSock r.name (sockPath uds r) backlog)),
           ws ++ rs.map (posixRunnerWatcher bi wd)) := by
  intro rs
  induction rs with
  | nil => intro bm sm ws _ _ _ _; simp [posixLoop]
  | cons r rest ih =>
      intro bm sm ws hshort hnodup hbm hsm
      have hs := hshort r (List.mem_cons_self r rest)
      have hb : r.name ∉ bm.map Prod.fst := hbm r (List.mem_cons_self r rest)
      have hsmm : r.name ∉ sm.map Prod.fst := hsm r (List.mem_cons_self r rest)
      have hnd : (∀ x ∈ rest, ¬ x.name = r.name) ∧
          (rest.map Runner.name).Nodup := by simpa using hnodup
      rw [posixLoop, if_pos hs, dictInsert_not_mem _ _ _ hb,
        dictInsert_not_mem _ _ _ hsmm]
      rw [ih (bm ++ [(r.name, path_to_uri (sockPath uds r))])
          (sm ++ [(r.name, CircusSocket.unixSock r.name (sockPath uds r) backlog)])
          (ws ++ [posixRunnerWatcher bi wd r])
          (fun r2 h2 => hshort r2 (List.mem_cons_of_mem r h2))
          hnd.2
          (fun r2 h2 => by
            simp only [List.map_append, List.mem_append, not_or]
            refine ⟨hbm r2 (List.mem_cons_of_mem r h2), ?_⟩
            intro hin
            have h3 : r2.name = r.name := by simpa using hin
            exact hnd.1 r2 h2 h3)
          (fun r2 h2 => by
            simp only [List.map_append, List.mem_append, not_or]
            refine ⟨hsm r2 (List.mem_cons_of_mem r h2), ?_⟩
            intro hin
            have h3 : r2.name = r.name := by simpa using hin
            exact hnd.1 r2 h2 h3)]
      simp [List.append_assoc]

theorem posixLoop_err (uds bi wd : String) (backlog : Nat) :
    ∀ (rs : List Runner) (bm : List (String × String))
      (sm : List (String × CircusSocket)) (ws : List Watcher),
      (∃ r ∈ rs, MAX_AF_UNIX_PATH_LENGTH ≤ (sockPath uds r).length) →
      posixLoop uds bi wd backlog rs bm sm ws =
        Except.error ServeError.assertionError := by
  intro rs
  induction rs with
  | nil =>
      intro bm sm ws hlong
      rcases hlong with ⟨r, hr, _⟩
      cases hr
  | cons r rest ih =>
      intro bm sm ws hlong
      by_cases hs : (sockPath uds r).length < MAX_AF_UNIX_PATH_LENGTH
      · have hrest : ∃ r2 ∈ rest,
            MAX_AF_UNIX_PATH_LENGTH ≤ (sockPath uds r2).length := by
          rcases hlong with ⟨r2, hr2, hl2⟩
          rcases List.mem_cons.mp hr2 with he | ht
          · subst he; exact absurd hs (Nat.not_lt.mpr hl2)
          · exact ⟨r2, ht, hl2⟩
        rw [posixLoop, if_pos hs]
        exact ih _ _ _ hrest
      · rw [posixLoop, if_neg hs]

theorem windowsLoop_ok (bi wd : String) (backlog : Nat) (ps : Nat → Nat) :
    ∀ (rs : List Runner) (k : Nat) (bm : List (String × String))
      (sm : List (String × CircusSocket)) (ws : List Watcher),
      (rs.map Runner.name).Nodup →
      (∀ r ∈ rs, r.name ∉ bm.map Prod.fst) →
      (∀ r ∈ rs, r.name ∉ sm.map Prod.fst) →
      windowsLoop bi wd backlog ps rs k bm sm ws =
        (bm ++ idxMap (fun i r =>
            (r.name, "tcp://127.0.0.1:" ++ toString (ps i))) k rs,
         sm ++ idxMap (fun i r =>
            (r.name, CircusSocket.tcpSock r.name "127.0.0.1" (ps i) backlog)) k rs,
         ws ++ rs.map (windowsRunnerWatcher bi wd),
         k + rs.length) := by
  intro rs
  induction rs with
  | nil => intro k bm sm ws _ _ _; simp [windowsLoop, idxMap]
  | cons r rest ih =>
      intro k bm sm ws hnodup hbm hsm
      have hb : r.name ∉ bm.map Prod.fst := hbm r (List.mem_cons_self r rest)
      have hsmm : r.name ∉ sm.map Prod.fst := hsm r (List.mem_cons_self r rest)
      have hnd : (∀ x ∈ rest, ¬ x.name = r.name) ∧
          (rest.map Runner.name).Nodup := by simpa using hnodup
      rw [windowsLoop, dictInsert_not_mem _ _ _ hb,
        dictInsert_not_mem _ _ _ hsmm]
      rw [ih (k + 1) _ _ _
          hnd.2
          (fun r2 h2 => by
            simp only [List.map_append, List.mem_append, not_or]
            refine ⟨hbm r2 (List.mem_cons_of_mem r h2), ?_⟩
            intro hin
            have h3 : r2.name = r.name := by simpa using hin
            exact hnd.1 r2 h2 h3)
          (fun r2 h2 => by
            simp only [List.map_append, List.mem_append, not_or]
            refine ⟨hsm r2 (List.mem_cons_of_mem r h2), ?_⟩
            intro hin
            have h3 : r2.name = r.name := by simpa using hin
            exact hnd.1 r2 h2 h3)]
      simp only [Prod.mk.injEq, idxMap]
      refine ⟨?_, ?_, ?_, ?_⟩
      · simp [List.append_assoc]
      · simp [List.append_assoc]
      · simp [List.append_assoc]
      · simp [List.length_cons]
        omega

/-! ## Claim C7 -/

/-- C7: for every configured metrics directory whose creation or cleaning
fails with a filesystem error (`OSError`: permission error, I/O error,
path occupied by a plain file), metrics-directory resolution with its
default parameters (`clean=True`, `use_alternative=True`) does not
abort: it returns the freshly created alternate temporary directory,
records a warning, and planning proceeds with that directory. -/
theorem c7_metrics_fallback (directory : String) (st : DirState)
    (rmtreeOk mkdirOk : Bool) (fallbackName : String)
    (hfail :
      (st = DirState.nonEmptyDir ∧ (rmtreeOk = false ∨ mkdirOk = false)) ∨
      st = DirState.fileEntry ∨
      (st = DirState.absent ∧ mkdirOk = false)) :
    (ensure_prometheus_dir directory true true st rmtreeOk mkdirOk
        fallbackName).result = Except.ok ("/tmp/" ++ fallbackName) ∧
    (ensure_prometheus_dir directory true true st rmtreeOk mkdirOk
        fallbackName).usedFallback = true ∧
    (ensure_prometheus_dir directory true true st rmtreeOk mkdirOk
        fallbackName).warned = true := by
  rcases hfail with ⟨h1, h2 | h2⟩ | h1 | ⟨h1, h2⟩ <;> subst h1
  · subst h2; exact ⟨rfl, rfl, rfl⟩
  · subst h2; cases rmtreeOk <;> exact ⟨rfl, rfl, rfl⟩
  · exact ⟨rfl, rfl, rfl⟩
  · subst h2; exact ⟨rfl, rfl, rfl⟩

theorem c7_metrics_fallback_witness :
    (ensure_prometheus_dir "/metrics" true true DirState.fileEntry true true
        "fb1").result = Except.ok ("/tmp/" ++ "fb1") ∧
    (ensure_prometheus_dir "/metrics" true true DirState.fileEntry true true
        "fb1").usedFallback = true ∧
    (ensure_prometheus_dir "/metrics" true true DirState.fileEntry true true
        "fb1").warned = true :=
  c7_metrics_fallback "/metrics" DirState.fileEntry true true "fb1"
    (Or.inr (Or.inl rfl))

/-! ## Claim C10 -/

/-- C10: with its default parameters (`clean=True`,
`use_alternative=True`), metrics-directory resolution never raises: for
every pre-existing state of the configured path it returns an absolute
path to an existing directory that is empty at return time (the
alternative `mkdtemp` directory is fresh and empty by construction); in
particular, when the configured path is a non-empty directory, its
contents are deleted and the directory recreated empty, without error. -/
theorem c10_metrics_never_raises (directory : String) (st : DirState)
    (rmtreeOk mkdirOk : Bool) (fallbackName : String) :
    (∃ p, (ensure_prometheus_dir directory true true st rmtreeOk mkdirOk
        fallbackName).result = Except.ok p ∧ p.data.headD ' ' = '/') ∧
    ((ensure_prometheus_dir directory true true st rmtreeOk mkdirOk
        fallbackName).usedFallback = false →
      (ensure_prometheus_dir directory true true st rmtreeOk mkdirOk
        fallbackName).configuredFinal = DirState.emptyDir) ∧
    (st = DirState.nonEmptyDir → rmtreeOk = true → mkdirOk = true →
      (ensure_prometheus_dir directory true true st rmtreeOk mkdirOk
          fallbackName).result = Except.ok (absPath directory) ∧
      (ensure_prometheus_dir directory true true st rmtreeOk mkdirOk
          fallbackName).usedFallback = false ∧
      (ensure_prometheus_dir directory true true st rmtreeOk mkdirOk
          fallbackName).configuredFinal = DirState.emptyDir) := by
  refine ⟨?_, ?_, ?_⟩
  · cases st <;> cases rmtreeOk <;> cases mkdirOk <;>
      first
        | exact ⟨absPath directory, rfl, absPath_abs directory⟩
        | exact ⟨"/tmp/" ++ fallbackName, rfl,
            headD_slash_append "/tmp/" fallbackName (by decide)⟩
  · intro h
    cases st <;> cases rmtreeOk <;> cases mkdirOk <;>
      simp_all [ensure_prometheus_dir]
  · intro h1 h2 h3
    subst h1; subst h2; subst h3
    exact ⟨rfl, rfl, rfl⟩

theorem c10_metrics_never_raises_witness :
    (ensure_prometheus_dir "/metrics" true true DirState.nonEmptyDir true
        true "fb2").result = Except.ok (absPath "/metrics") ∧
    (ensure_prometheus_dir "/metrics" true true DirState.nonEmptyDir true
        true "fb2").usedFallback = false ∧
    (ensure_prometheus_dir "/metrics" true true DirState.nonEmptyDir true
        true "fb2").configuredFinal = DirState.emptyDir :=
  (c10_metrics_never_raises "/metrics" DirState.nonEmptyDir true true
    "fb2").2.2 rfl rfl rfl

/-! ## Claim C9 -/

/-- C9: for every leaf-worker invocation of the API-server bootstrap
(worker identity present), the inherited socket is resolved strictly via
the file-descriptor substitution scheme: when the bind URI's scheme is
anything other than `fd` (for example a plain `tcp://host:port`), the
worker fails the scheme assertion before serving; and whenever it does
serve, the socket is the adopted inherited descriptor parsed from the
URI — never a freshly bound one. -/
theorem c9_leaf_fd_only (bind : String) (backlog : Nat) (w : Int)
    (s : SslParams) (isWindows : Bool) :
    ((urlparse bind).scheme ≠ "fd" →
      http_api_server_main bind backlog (some w) s isWindows =
        MainOutcome.leafAssertFailed) ∧
    (∀ src opts,
      http_api_server_main bind backlog (some w) s isWindows =
        MainOutcome.leafServing src opts →
      (urlparse bind).scheme = "fd" ∧
      ∃ fd, pyIntOfString (urlparse bind).netloc = some fd ∧
        src = SockSource.inheritedFd fd) := by
  constructor
  · intro h
    simp [http_api_server_main, h]
  · intro src opts h
    by_cases hs : (urlparse bind).scheme = "fd"
    · refine ⟨hs, ?_⟩
      simp only [http_api_server_main, hs, if_pos] at h
      cases hp : pyIntOfString (urlparse bind).netloc with
      | none => rw [hp] at h; cases h
      | some fd =>
          rw [hp] at h
          injection h with h1 h2
          exact ⟨fd, rfl, h1.symm⟩
    · exfalso
      simp [http_api_server_main, hs] at h

theorem c9_leaf_fd_only_witness :
    http_api_server_main "tcp://127.0.0.1:3000" 2048 (some 1) {} false =
      MainOutcome.leafAssertFailed :=
  (c9_leaf_fd_only "tcp://127.0.0.1:3000" 2048 1 {} false).1 (by decide)

/-! ## Claim C6 -/

/-- C6: for every service, regardless of how many runners it declares,
development-mode planning yields exactly one process specification (the
dev API-server worker, process count 1) and exactly one socket
specification (the API server's), with no runner sockets, no runner
processes, and no `--runner-map` argument in the worker's argument
vector. The non-collision hypotheses record that none of the free-form
string parameters is itself the literal flag string. -/
theorem c6_dev_single_process (bento_identifier working_dir : String)
    (port : Nat) (host : String) (backlog : Nat) (reload : Bool)
    (ssl : SslParams) (prometheus_dir : String) (runners : List Runner)
    (h1 : bento_identifier ≠ "--runner-map")
    (h2 : working_dir ≠ "--runner-map")
    (h3 : prometheus_dir ≠ "--runner-map")
    (h4 : "--runner-map" ∉ sslArgs ssl) :
    (serve_development bento_identifier working_dir port host backlog
        reload ssl prometheus_dir runners).sockets =
      [CircusSocket.tcpSock "_bento_api_server" host port backlog] ∧
    ∃ w, (serve_development bento_identifier working_dir port host backlog
        reload ssl prometheus_dir runners).watchers = [w] ∧
      w.numprocesses = 1 ∧ "--runner-map" ∉ w.args := by
  refine ⟨rfl, _, rfl, rfl, ?_⟩
  intro hmem
  simp only [devApiBaseArgs, List.mem_append, List.mem_cons,
    List.not_mem_nil, or_false] at hmem
  rcases hmem with (h | h | h | h | h | h | h | h | h) | h
  · exact absurd h (by decide)
  · exact absurd h (by decide)
  · exact h1 h.symm
  · exact absurd h (by decide)
  · exact absurd h (by decide)
  · exact absurd h (by decide)
  · exact h2 h.symm
  · exact absurd h (by decide)
  · exact h3 h.symm
  · exact h4 h

theorem c6_dev_single_process_witness :
    (serve_development "svc" "/w" 3000 "127.0.0.1" 2048 false {} "/prom"
        [{ name := "r1", scheduled_worker_count := 2, idTag := 7 },
         { name := "r2", scheduled_worker_count := 1, idTag := 8 }]).sockets =
      [CircusSocket.tcpSock "_bento_api_server" "127.0.0.1" 3000 2048] ∧
    ∃ w, (serve_development "svc" "/w" 3000 "127.0.0.1" 2048 false {} "/prom"
        [{ name := "r1", scheduled_worker_count := 2, idTag := 7 },
         { name := "r2", scheduled_worker_count := 1, idTag := 8 }]).watchers =
        [w] ∧ w.numprocesses = 1 ∧ "--runner-map" ∉ w.args :=
  c6_dev_single_process "svc" "/w" 3000 "127.0.0.1" 2048 false {} "/prom"
    [{ name := "r1", scheduled_worker_count := 2, idTag := 7 },
     { name := "r2", scheduled_worker_count := 1, idTag := 8 }]
    (by decide) (by decide) (by decide) (by decide)

/-! ## Claim C1 -/

/-- C1 (amended): for every service with N runners whose names are
distinct, none of them the reserved API-server socket name, and whose
socket paths fit the platform limit, production-mode planning on POSIX
produces exactly one socket spec and one process spec per runner plus
exactly one API-server socket and process spec; the runner-address map
has exactly one entry per runner name; each runner process spec has
process count equal to the runner's declared worker count; and the
API-server process spec has process count equal to the explicit
`api_workers` override when given and nonzero (Python truthiness),
otherwise the ceiling of the available CPU allotment. -/
theorem c1_prod_topology_amended (bi wd : String) (port : Nat)
    (host : String) (backlog : Nat) (api_workers : Option Int)
    (ssl : SslParams) (runners : List Runner) (uds : String)
    (ps : Nat → Nat) (cpuCeil : Int) (prom : String)
    (hshort : ∀ r ∈ runners,
      (sockPath uds r).length < MAX_AF_UNIX_PATH_LENGTH)
    (hnodup : (runners.map Runner.name).Nodup)
    (hres : "_bento_api_server" ∉ runners.map Runner.name) :
    ∃ topo,
      (serve_production Platform.posix bi wd port host backlog api_workers
          ssl runners uds ps cpuCeil prom).result = Except.ok topo ∧
      topo.bindMap =
        runners.map (fun r => (r.name, path_to_uri (sockPath uds r))) ∧
      topo.bindMap.length = runners.length ∧
      topo.socketMap.length = runners.length + 1 ∧
      topo.watchers = runners.map (posixRunnerWatcher bi wd) ++
        [prodApiWatcher bi
          (runners.map (fun r => (r.name, path_to_uri (sockPath uds r))))
          wd backlog prom ssl api_workers cpuCeil] ∧
      topo.watchers.length = runners.length + 1 ∧
      (∀ r ∈ runners, (posixRunnerWatcher bi wd r).numprocesses =
        (r.scheduled_worker_count : Int)) ∧
      (∀ w, api_workers = some w → w ≠ 0 →
        (prodApiWatcher bi topo.bindMap wd backlog prom ssl api_workers
          cpuCeil).numprocesses = w) ∧
      ((api_workers = none ∨ api_workers = some 0) →
        (prodApiWatcher bi topo.bindMap wd backlog prom ssl api_workers
          cpuCeil).numprocesses = cpuCeil) := by
  have hloop := posixLoop_ok uds bi wd backlog runners [] [] []
    hshort hnodup (by simp) (by simp)
  have hkeys : "_bento_api_server" ∉
      (runners.map (fun r =>
        (r.name, CircusSocket.unixSock r.name (sockPath uds r) backlog))).map
        Prod.fst := by
    simpa [List.map_map, Function.comp] using hres
  refine ⟨Topology.mk
    (runners.map (fun r =>
        (r.name, CircusSocket.unixSock r.name (sockPath uds r) backlog)) ++
      [("_bento_api_server",
        CircusSocket.tcpSock "_bento_api_server" host port backlog)])
    (runners.map (fun r => (r.name, path_to_uri (sockPath uds r))))
    (runners.map (posixRunnerWatcher bi wd) ++
      [prodApiWatcher bi
        (runners.map (fun r => (r.name, path_to_uri (sockPath uds r))))
        wd backlog prom ssl api_workers cpuCeil]),
    ?_, rfl, by simp, by simp, rfl, by simp, fun r _ => rfl, ?_, ?_⟩
  · simp only [serve_production, hloop, List.nil_append]
    rw [dictInsert_not_mem _ _ _ hkeys]
  · intro w hw hw0
    simp only [prodApiWatcher]
    rw [hw]
    exact pyOrInt_some_ne w cpuCeil hw0
  · intro h
    simp only [prodApiWatcher]
    exact pyOrInt_falsy api_workers cpuCeil h

theorem c1_prod_topology_amended_witness :
    planShape (serve_production Platform.posix "svc" "/w" 3000 "h" 2048
      none {} [{ name := "r1", scheduled_worker_count := 2, idTag := 7 },
               { name := "r2", scheduled_worker_count := 3, idTag := 8 }]
      "/tmp/x" (fun n => n) 4 "/prom") = some (3, 2, 3) := by
  obtain ⟨t, h1, _, hb, hsc, _, hw, _, _, _⟩ :=
    c1_prod_topology_amended "svc" "/w" 3000 "h" 2048 none {}
      [{ name := "r1", scheduled_worker_count := 2, idTag := 7 },
       { name := "r2", scheduled_worker_count := 3, idTag := 8 }]
      "/tmp/x" (fun n => n) 4 "/prom" (by decide) (by decide) (by decide)
  simp [planShape, h1, hb, hsc, hw]

/-- C1 counterexample: with the explicit override `api_workers = 0`
given, the API-server process spec's process count is the CPU ceiling
(here 4), not the override 0 — `api_workers or math.ceil(…)` treats the
falsy override 0 as absent, contradicting the claim's "process count
equal to the explicit api_workers override when given". -/
theorem c1_counterexample :
    planApiNumprocesses (serve_production Platform.posix "svc" "/w" 3000
      "h" 2048 (some 0) {}
      [{ name := "r1", scheduled_worker_count := 2, idTag := 7 }]
      "/tmp/x" (fun n => n) 4 "/prom") = some 4 := by decide

/-! ## Claim C2 -/

/-- C2 (amended): for every candidate local-domain socket path of length
at least 103, production-mode allocation on POSIX fails fast — but with
a bare `AssertionError` that does not name the offending runner, not a
`TopologyError`; and the process-exclusive temporary socket directory
has already been created at that point and is not removed by planning. -/
theorem c2_long_path_amended (bi wd : String) (port : Nat) (host : String)
    (backlog : Nat) (api_workers : Option Int) (ssl : SslParams)
    (runners : List Runner) (uds : String) (ps : Nat → Nat)
    (cpuCeil : Int) (prom : String)
    (hlong : ∃ r ∈ runners,
      MAX_AF_UNIX_PATH_LENGTH ≤ (sockPath uds r).length) :
    (serve_production Platform.posix bi wd port host backlog api_workers
        ssl runners uds ps cpuCeil prom).result =
      Except.error ServeError.assertionError ∧
    (serve_production Platform.posix bi wd port host backlog api_workers
        ssl runners uds ps cpuCeil prom).udsCreated = true ∧
    (serve_production Platform.posix bi wd port host backlog api_workers
        ssl runners uds ps cpuCeil prom).udsPath = some uds := by
  have hl := posixLoop_err uds bi wd backlog runners [] [] [] hlong
  simp [serve_production, hl]

theorem c2_long_path_amended_witness :
    (serve_production Platform.posix "svc" "/w" 3000 "h" 2048 none {}
        [{ name := "r", scheduled_worker_count := 1, idTag := 0 }]
        (String.mk (List.replicate 100 'a')) (fun n => n) 1
        "/prom").result = Except.error ServeError.assertionError ∧
    (serve_production Platform.posix "svc" "/w" 3000 "h" 2048 none {}
        [{ name := "r", scheduled_worker_count := 1, idTag := 0 }]
        (String.mk (List.replicate 100 'a')) (fun n => n) 1
        "/prom").udsCreated = true ∧
    (serve_production Platform.posix "svc" "/w" 3000 "h" 2048 none {}
        [{ name := "r", scheduled_worker_count := 1, idTag := 0 }]
        (String.mk (List.replicate 100 'a')) (fun n => n) 1
        "/prom").udsPath = some (String.mk (List.replicate 100 'a')) :=
  c2_long_path_amended "svc" "/w" 3000 "h" 2048 none {}
    [{ name := "r", scheduled_worker_count := 1, idTag := 0 }]
    (String.mk (List.replicate 100 'a')) (fun n => n) 1 "/prom"
    ⟨{ name := "r", scheduled_worker_count := 1, idTag := 0 },
      by decide, by decide⟩

/-- C2 counterexample: at a 107-byte candidate path the failure is an
`AssertionError`, not a `TopologyError`, and the temporary socket
directory has already been created — the claim's "no socket or directory
is created" is false. -/
theorem c2_counterexample :
    planErr (serve_production Platform.posix "svc" "/w" 3000 "h" 2048
      none {} [{ name := "r", scheduled_worker_count := 1, idTag := 0 }]
      (String.mk (List.replicate 100 'a')) (fun n => n) 1 "/prom") =
      some ServeError.assertionError ∧
    (serve_production Platform.posix "svc" "/w" 3000 "h" 2048 none {}
      [{ name := "r", scheduled_worker_count := 1, idTag := 0 }]
      (String.mk (List.replicate 100 'a')) (fun n => n) 1
      "/prom").udsCreated = true := by decide

/-! ## Claim C4 -/

/-- C4 (amended): on every exit path of the supervisor start call of a
production serve on POSIX — normal exit, termination signal, or an
exception raised by the start call — the ephemeral local-socket
temporary directory is removed exactly once; but when planning itself
raises after the directory's creation (e.g. the socket-path assertion),
the `finally` block is never entered and the directory is removed zero
times. -/
theorem c4_cleanup_amended (bi wd : String) (port : Nat) (host : String)
    (backlog : Nat) (api_workers : Option Int) (ssl : SslParams)
    (runners : List Runner) (uds : String) (ps : Nat → Nat)
    (cpuCeil : Int) (prom : String) (exit : ExitPath) :
    (planOk (serve_production Platform.posix bi wd port host backlog
        api_workers ssl runners uds ps cpuCeil prom) = true →
      serve_production_run (serve_production Platform.posix bi wd port host
        backlog api_workers ssl runners uds ps cpuCeil prom) exit = 1) ∧
    (planOk (serve_production Platform.posix bi wd port host backlog
        api_workers ssl runners uds ps cpuCeil prom) = false →
      serve_production_run (serve_production Platform.posix bi wd port host
        backlog api_workers ssl runners uds ps cpuCeil prom) exit = 0 ∧
      (serve_production Platform.posix bi wd port host backlog api_workers
        ssl runners uds ps cpuCeil prom).udsCreated = true) := by
  cases hp : posixLoop uds bi wd backlog runners [] [] [] with
  | error e =>
      constructor
      · intro h
        exfalso
        simp [serve_production, planOk, hp] at h
      · intro _
        simp [serve_production, serve_production_run, hp]
  | ok v =>
      obtain ⟨bm, sm, ws⟩ := v
      constructor
      · intro _
        simp [serve_production, serve_production_run, hp]
      · intro h
        exfalso
        simp [serve_production, planOk, hp] at h

theorem c4_cleanup_amended_witness :
    serve_production_run (serve_production Platform.posix "svc" "/w" 3000
      "h" 2048 none {}
      [{ name := "r1", scheduled_worker_count := 1, idTag := 7 }]
      "/tmp/x" (fun n => n) 1 "/prom") ExitPath.signalled = 1 :=
  (c4_cleanup_amended "svc" "/w" 3000 "h" 2048 none {}
    [{ name := "r1", scheduled_worker_count := 1, idTag := 7 }]
    "/tmp/x" (fun n => n) 1 "/prom" ExitPath.signalled).1 (by decide)

/-- C4 counterexample: a planning exception (socket-path assertion) after
`mkdtemp` leaves the directory created but removed zero times, on what
the claim counts as an exit path requiring exactly one removal. -/
theorem c4_counterexample :
    serve_production_run (serve_production Platform.posix "svc" "/w" 3000
      "h" 2048 none {}
      [{ name := "r", scheduled_worker_count := 1, idTag := 0 }]
      (String.mk (List.replicate 100 'a')) (fun n => n) 1 "/prom")
      ExitPath.normalExit = 0 ∧
    (serve_production Platform.posix "svc" "/w" 3000 "h" 2048 none {}
      [{ name := "r", scheduled_worker_count := 1, idTag := 0 }]
      (String.mk (List.replicate 100 'a')) (fun n => n) 1
      "/prom").udsCreated = true := by decide

/-! ## Claim C5 -/

/-- C5 (amended): production-mode planning performs no duplicate-name
check: for a service with two runners sharing one name (distinct from
the reserved API-server socket name, paths within the limit), planning
succeeds with no error; the shared name holds a single socket-map entry
and a single address-map entry — the later runner's socket and address
overwrite the earlier's — while one process spec is appended per runner,
so the topology has fewer sockets and map entries than process specs. -/
theorem c5_duplicate_names_amended (bi wd : String) (port : Nat)
    (host : String) (backlog : Nat) (api_workers : Option Int)
    (ssl : SslParams) (r1 r2 : Runner) (uds : String) (ps : Nat → Nat)
    (cpuCeil : Int) (prom : String)
    (hname : r1.name = r2.name)
    (hapi : ¬ r2.name = "_bento_api_server")
    (h1 : (sockPath uds r1).length < MAX_AF_UNIX_PATH_LENGTH)
    (h2 : (sockPath uds r2).length < MAX_AF_UNIX_PATH_LENGTH) :
    ∃ topo,
      (serve_production Platform.posix bi wd port host backlog api_workers
          ssl [r1, r2] uds ps cpuCeil prom).result = Except.ok topo ∧
      topo.bindMap = [(r2.name, path_to_uri (sockPath uds r2))] ∧
      topo.socketMap.length = 2 ∧
      topo.watchers.length = 3 := by
  have hloop : posixLoop uds bi wd backlog [r1, r2] [] [] [] =
      Except.ok ([(r2.name, path_to_uri (sockPath uds r2))],
        [(r2.name, CircusSocket.unixSock r2.name (sockPath uds r2) backlog)],
        [posixRunnerWatcher bi wd r1, posixRunnerWatcher bi wd r2]) := by
    rw [posixLoop, if_pos h1, posixLoop, if_pos h2, posixLoop]
    simp [dictInsert, hname]
  refine ⟨Topology.mk
    [(r2.name, CircusSocket.unixSock r2.name (sockPath uds r2) backlog),
     ("_bento_api_server",
      CircusSocket.tcpSock "_bento_api_server" host port backlog)]
    [(r2.name, path_to_uri (sockPath uds r2))]
    [posixRunnerWatcher bi wd r1, posixRunnerWatcher bi wd r2,
     prodApiWatcher bi [(r2.name, path_to_uri (sockPath uds r2))] wd
       backlog prom ssl api_workers cpuCeil],
    ?_, rfl, rfl, rfl⟩
  simp only [serve_production, hloop]
  simp only [dictInsert]
  rw [if_neg hapi]
  rfl

theorem c5_duplicate_names_amended_witness :
    planShape (serve_production Platform.posix "svc" "/w" 3000 "h" 2048
      none {} [{ name := "dup", scheduled_worker_count := 1, idTag := 1 },
               { name := "dup", scheduled_worker_count := 2, idTag := 2 }]
      "/t" (fun n => n) 1 "/prom") = some (2, 1, 3) := by
  obtain ⟨t, hr, hb, hs, hw⟩ := c5_duplicate_names_amended "svc" "/w" 3000
    "h" 2048 none {}
    { name := "dup", scheduled_worker_count := 1, idTag := 1 }
    { name := "dup", scheduled_worker_count := 2, idTag := 2 }
    "/t" (fun n => n) 1 "/prom" (by decide) (by decide) (by decide)
    (by decide)
  simp [planShape, hr, hb, hs, hw]

/-- C5 counterexample: a concrete service with two runners both named
"r" plans successfully (no `TopologyError` — no error at all) and yields
2 socket specs and 1 address-map entry against 3 process specs: planning
silently produced fewer sockets and map entries than process specs. -/
theorem c5_counterexample :
    planErr (serve_production Platform.posix "svc" "/w" 3000 "h" 2048
      none {} [{ name := "r", scheduled_worker_count := 1, idTag := 3 },
               { name := "r", scheduled_worker_count := 2, idTag := 4 }]
      "/t" (fun n => n) 1 "/prom") = none ∧
    planShape (serve_production Platform.posix "svc" "/w" 3000 "h" 2048
      none {} [{ name := "r", scheduled_worker_count := 1, idTag := 3 },
               { name := "r", scheduled_worker_count := 2, idTag := 4 }]
      "/t" (fun n => n) 1 "/prom") = some (2, 1, 3) := by decide

/-! ## Claim C8 -/

/-- C8: for a production serve on a Windows-style platform (no
local-domain sockets) with N runners (names distinct and none the
reserved API-server socket name), planning reserves exactly N+1 loopback
TCP ports — one per runner plus one extra probed as an anti-collision
measure — each runner socket is bound to host 127.0.0.1 with its
reserved port, the reserved ports are pairwise distinct (the port supply
hands out distinct ports while all reservations are simultaneously
held), and zero local-socket directories are created. -/
theorem c8_windows_ports (bi wd : String) (port : Nat) (host : String)
    (backlog : Nat) (api_workers : Option Int) (ssl : SslParams)
    (runners : List Runner) (uds : String) (ps : Nat → Nat)
    (cpuCeil : Int) (prom : String)
    (hnodup : (runners.map Runner.name).Nodup)
    (hres : "_bento_api_server" ∉ runners.map Runner.name)
    (hinj : Function.Injective ps) :
    (serve_production Platform.windows bi wd port host backlog api_workers
      ssl runners uds ps cpuCeil prom).portsReserved =
      runners.length + 1 ∧
    (serve_production Platform.windows bi wd port host backlog api_workers
      ssl runners uds ps cpuCeil prom).udsCreated = false ∧
    (serve_production Platform.windows bi wd port host backlog api_workers
      ssl runners uds ps cpuCeil prom).udsPath = none ∧
    ∃ topo,
      (serve_production Platform.windows bi wd port host backlog
        api_workers ssl runners uds ps cpuCeil prom).result =
        Except.ok topo ∧
      topo.socketMap = idxMap (fun i r =>
          (r.name, CircusSocket.tcpSock r.name "127.0.0.1" (ps i) backlog))
          0 runners ++
        [("_bento_api_server",
          CircusSocket.tcpSock "_bento_api_server" host port backlog)] ∧
      ((topo.socketMap.take runners.length).map
        (fun q => socketPort q.2)).Nodup ∧
      topo.watchers.length = runners.length + 1 := by
  have hloop := windowsLoop_ok bi wd backlog ps runners 0 [] [] []
    hnodup (by simp) (by simp)
  have hkeys : "_bento_api_server" ∉
      (idxMap (fun i r =>
        (r.name, CircusSocket.tcpSock r.name "127.0.0.1" (ps i) backlog))
        0 runners).map Prod.fst := by
    rw [idxMap_map]
    simpa [idxMap_const_index Runner.name 0 runners] using hres
  have hmap : (serve_production Platform.windows bi wd port host backlog
      api_workers ssl runners uds ps cpuCeil prom).result = Except.ok
      (Topology.mk
        (idxMap (fun i r =>
          (r.name, CircusSocket.tcpSock r.name "127.0.0.1" (ps i) backlog))
          0 runners ++
         [("_bento_api_server",
           CircusSocket.tcpSock "_bento_api_server" host port backlog)])
        (idxMap (fun i r =>
          (r.name, "tcp://127.0.0.1:" ++ toString (ps i))) 0 runners)
        (runners.map (windowsRunnerWatcher bi wd) ++
         [prodApiWatcher bi
           (idxMap (fun i r =>
             (r.name, "tcp://127.0.0.1:" ++ toString (ps i))) 0 runners)
           wd backlog prom ssl api_workers cpuCeil])) := by
    simp only [serve_production, hloop, List.nil_append]
    rw [dictInsert_not_mem _ _ _ hkeys]
  refine ⟨?_, ?_, ?_, _, hmap, rfl, ?_, ?_⟩
  · simp [serve_production, hloop]
  · simp [serve_production, hloop]
  · simp [serve_production, hloop]
  · have hlen : (idxMap (fun i r =>
        (r.name, CircusSocket.tcpSock r.name "127.0.0.1" (ps i) backlog))
        0 runners).length = runners.length := idxMap_length _ 0 runners
    rw [show runners.length = (idxMap (fun i r =>
        (r.name, CircusSocket.tcpSock r.name "127.0.0.1" (ps i) backlog))
        0 runners).length from hlen.symm, List.take_left, idxMap_map]
    simpa [socketPort] using idxMap_ports_nodup ps hinj 0 runners
  · simp [idxMap_length]

theorem c8_windows_ports_witness :
    (serve_production Platform.windows "svc" "/w" 3000 "0.0.0.0" 2048
      none {}
      [{ name := "embedder", scheduled_worker_count := 1, idTag := 1 },
       { name := "classifier", scheduled_worker_count := 1, idTag := 2 }]
      "" (fun n => 5000 + n) 1 "/prom").portsReserved = 3 ∧
    (serve_production Platform.windows "svc" "/w" 3000 "0.0.0.0" 2048
      none {}
      [{ name := "embedder", scheduled_worker_count := 1, idTag := 1 },
       { name := "classifier", scheduled_worker_count := 1, idTag := 2 }]
      "" (fun n => 5000 + n) 1 "/prom").udsCreated = false ∧
    (serve_production Platform.windows "svc" "/w" 3000 "0.0.0.0" 2048
      none {}
      [{ name := "embedder", scheduled_worker_count := 1, idTag := 1 },
       { name := "classifier", scheduled_worker_count := 1, idTag := 2 }]
      "" (fun n => 5000 + n) 1 "/prom").udsPath = none := by
  obtain ⟨h1, h2, h3, _⟩ := c8_windows_ports "svc" "/w" 3000 "0.0.0.0"
    2048 none {}
    [{ name := "embedder", scheduled_worker_count := 1, idTag := 1 },
     { name := "classifier", scheduled_worker_count := 1, idTag := 2 }]
    "" (fun n => 5000 + n) 1 "/prom" (by decide) (by decide)
    (fun a b h => Nat.add_left_cancel h)
  exact ⟨h1, h2, h3⟩

/-! ## Claim C3 -/

theorem cleanOpt_none : cleanOpt none :=
  fun _ hv => nomatch hv

theorem cleanOpt_some (v0 : String) (h : v0 ∉ sslFlagStrings) :
    cleanOpt (some v0) := by
  intro v hv
  injection hv with h1
  exact h1 ▸ h

theorem mem_optArgStr (f g : String) (o : Option String)
    (hf : f ∈ sslFlagStrings) (hc : cleanOpt o) :
    f ∈ optArgStr g o ↔ (f = g ∧ o.isSome) := by
  cases o with
  | none => simp [optArgStr]
  | some v =>
      simp only [optArgStr, List.mem_cons, List.not_mem_nil, or_false,
        Option.isSome_some, and_true]
      constructor
      · rintro (h | h)
        · exact h
        · exact absurd (h ▸ hf) (hc v rfl)
      · exact Or.inl

theorem mem_sslArgs (f : String) (s : SslParams)
    (hf : f ∈ sslFlagStrings) (hc : sslValuesClean s) :
    f ∈ sslArgs s ↔
      ((f = "--ssl-keyfile" ∧ s.keyfile.isSome) ∨
       (f = "--ssl-certfile" ∧ s.certfile.isSome) ∨
       (f = "--ssl-keyfile-password" ∧ s.keyfile_password.isSome) ∨
       (f = "--ssl-version" ∧ s.version.isSome) ∨
       (f = "--ssl-cert-reqs" ∧ s.cert_reqs.isSome) ∨
       (f = "--ssl-ca-certs" ∧ s.ca_certs.isSome) ∨
       (f = "--ssl-ciphers" ∧ s.ciphers.isSome)) := by
  obtain ⟨c1, c2, c3, c4, c5, c6, c7x⟩ := hc
  simp only [sslArgs, List.mem_append]
  rw [mem_optArgStr f _ _ hf c1, mem_optArgStr f _ _ hf c2,
    mem_optArgStr f _ _ hf c3, mem_optArgStr f _ _ hf c4,
    mem_optArgStr f _ _ hf c5, mem_optArgStr f _ _ hf c6,
    mem_optArgStr f _ _ hf c7x]
  simp [Option.isSome_map, or_assoc]

theorem truthyFilterStr_if (o : Option String) :
    truthyFilterStr o (if pyTruthyStr o then o else none) := by
  cases o with
  | none => simp [truthyFilterStr, pyTruthyStr]
  | some v =>
      by_cases hv : v = ""
      · subst hv; simp [truthyFilterStr, pyTruthyStr]
      · simp [truthyFilterStr, pyTruthyStr, hv]

theorem truthyFilterInt_if (o : Option Int) :
    truthyFilterInt o (if pyTruthyInt o then o else none) := by
  cases o with
  | none => simp [truthyFilterInt, pyTruthyInt]
  | some v =>
      by_cases hv : v = 0
      · subst hv; simp [truthyFilterInt, pyTruthyInt]
      · simp [truthyFilterInt, pyTruthyInt, hv]

/-- C3 (amended): exactly the TLS parameters that are set (not `None`)
appear, with their values, in the constructed API-server argument vector
— in particular, with only keyfile and certfile set, the TLS suffix of
the argument vector is exactly those two flag/value pairs and none of
the other five flags; but the option set handed to the downstream HTTP
server keeps only the parameters whose values are truthy: a parameter
set to the empty string or to 0 (e.g. peer-cert requirement mode
`ssl.CERT_NONE`) is forwarded on the argument vector yet omitted from
the downstream option set. The hypotheses record that the free-form
base-argument strings and TLS values are not themselves flag strings. -/
theorem c3_tls_forwarding_amended (bi wd prom : String) (backlog : Nat)
    (bm : List (String × String)) (s : SslParams) (isWindows : Bool)
    (hbase : ∀ f ∈ sslFlagStrings, f ∉ prodApiBaseArgs bi bm wd backlog prom)
    (hc : sslValuesClean s) :
    ("--ssl-keyfile" ∈ prodApiArgs bi bm wd backlog prom s ↔
      s.keyfile.isSome) ∧
    ("--ssl-certfile" ∈ prodApiArgs bi bm wd backlog prom s ↔
      s.certfile.isSome) ∧
    ("--ssl-keyfile-password" ∈ prodApiArgs bi bm wd backlog prom s ↔
      s.keyfile_password.isSome) ∧
    ("--ssl-version" ∈ prodApiArgs bi bm wd backlog prom s ↔
      s.version.isSome) ∧
    ("--ssl-cert-reqs" ∈ prodApiArgs bi bm wd backlog prom s ↔
      s.cert_reqs.isSome) ∧
    ("--ssl-ca-certs" ∈ prodApiArgs bi bm wd backlog prom s ↔
      s.ca_certs.isSome) ∧
    ("--ssl-ciphers" ∈ prodApiArgs bi bm wd backlog prom s ↔
      s.ciphers.isSome) ∧
    (∀ kf cf, sslArgs { keyfile := some kf, certfile := some cf } =
      ["--ssl-keyfile", kf, "--ssl-certfile", cf]) ∧
    truthyFilterStr s.keyfile
      (buildUvicornOptions backlog s isWindows).ssl_keyfile ∧
    truthyFilterStr s.certfile
      (buildUvicornOptions backlog s isWindows).ssl_certfile ∧
    truthyFilterStr s.keyfile_password
      (buildUvicornOptions backlog s isWindows).ssl_keyfile_password ∧
    truthyFilterInt s.version
      (buildUvicornOptions backlog s isWindows).ssl_version ∧
    truthyFilterInt s.cert_reqs
      (buildUvicornOptions backlog s isWindows).ssl_cert_reqs ∧
    truthyFilterStr s.ca_certs
      (buildUvicornOptions backlog s isWindows).ssl_ca_certs ∧
    truthyFilterStr s.ciphers
      (buildUvicornOptions backlog s isWindows).ssl_ciphers := by
  have hmem : ∀ f, f ∈ sslFlagStrings →
      (f ∈ prodApiArgs bi bm wd backlog prom s ↔ f ∈ sslArgs s) := by
    intro f hf
    simp only [prodApiArgs, List.mem_append]
    constructor
    · rintro (h | h)
      · exact absurd h (hbase f hf)
      · exact h
    · exact Or.inr
  refine ⟨?_, ?_, ?_, ?_, ?_, ?_, ?_, fun kf cf => rfl,
    truthyFilterStr_if s.keyfile, truthyFilterStr_if s.certfile,
    truthyFilterStr_if s.keyfile_password, truthyFilterInt_if s.version,
    truthyFilterInt_if s.cert_reqs, truthyFilterStr_if s.ca_certs,
    truthyFilterStr_if s.ciphers⟩
  · rw [hmem _ (by decide), mem_sslArgs _ s (by decide) hc]
    simp
  · rw [hmem _ (by decide), mem_sslArgs _ s (by decide) hc]
    simp
  · rw [hmem _ (by decide), mem_sslArgs _ s (by decide) hc]
    simp
  · rw [hmem _ (by decide), mem_sslArgs _ s (by decide) hc]
    simp
  · rw [hmem _ (by decide), mem_sslArgs _ s (by decide) hc]
    simp
  · rw [hmem _ (by decide), mem_sslArgs _ s (by decide) hc]
    simp
  · rw [hmem _ (by decide), mem_sslArgs _ s (by decide) hc]
    simp

theorem c3_tls_forwarding_amended_witness :
    ("--ssl-keyfile" ∈ prodApiArgs "svc" [("r1", "u")] "/w" 2048 "/prom"
      { keyfile := some "/k.pem", certfile := some "/c.pem" }) ∧
    ("--ssl-version" ∉ prodApiArgs "svc" [("r1", "u")] "/w" 2048 "/prom"
      { keyfile := some "/k.pem", certfile := some "/c.pem" }) := by
  obtain ⟨h1, _, _, h4, _⟩ := c3_tls_forwarding_amended "svc" "/w" "/prom"
    2048 [("r1", "u")]
    { keyfile := some "/k.pem", certfile := some "/c.pem" } false
    (by decide)
    ⟨cleanOpt_some "/k.pem" (by decide), cleanOpt_some "/c.pem" (by decide),
     cleanOpt_none, cleanOpt_none, cleanOpt_none, cleanOpt_none,
     cleanOpt_none⟩
  exact ⟨h1.mpr rfl, fun hm => by simpa using h4.mp hm⟩

/-- C3 counterexample: with peer-cert requirement mode set to 0
(`ssl.CERT_NONE`) and every other TLS parameter absent, the flag is
forwarded on the API-server argument vector, yet the option set handed
to the downstream HTTP server omits `ssl_cert_reqs` entirely — the
parameter is "present in S" but does not appear in the downstream
option set, contradicting the claim. -/
theorem c3_counterexample :
    ("--ssl-cert-reqs" ∈ prodApiArgs "svc" [] "/w" 2048 "/prom"
      { cert_reqs := some 0 }) ∧
    (buildUvicornOptions 2048 { cert_reqs := some 0 } false).ssl_cert_reqs
      = none := by decide

end BentoServe
